import Mathlib

/-!
Shallow embedding of the Substrate state RPC module
(src/client/rpc/src/state/mod.rs): the state and child-state backend
interfaces, the dispatch surface registered by into_rpc_module, and the
runtime-version subscription task, with theorems checking the module's
specification against this embedding.

Conventions: machine bytes are Nat lists, block hashes are a type parameter,
Rust Result is Except, async is erased (the dispatch blocks on every backend
call), and each handler additionally returns the list of backend operations
it invoked, so that admission-control claims ("the backend is never invoked")
are statable.
-/

set_option autoImplicit false

namespace Substrate

/-- Opaque byte blob (sp_core::Bytes). -/
abbrev Bytes := List Nat

/-- An opaque byte sequence identifying one state slot. -/
abbrev StorageKey := List Nat

/-- The opaque byte sequence stored at a key (sp_core::storage::StorageData). -/
abbrev StorageData := List Nat

/-- Namespace identifier plus key, addressing a child sub-trie. -/
abbrev PrefixedStorageKey := List Nat

/-- sp_rpc::tracing::TraceBlockResponse, opaque to this module. -/
abbrev TraceBlockResponse := Nat

/-- sp_version::RuntimeVersion: a versioned descriptor of the active runtime,
compared by structural equality to detect upgrades. -/
structure RuntimeVersion where
  spec_name : String
  impl_name : String
  authoring_version : Nat
  spec_version : Nat
  impl_version : Nat
  transaction_version : Nat
  deriving DecidableEq

/-- sp_core::storage::StorageChangeSet: a block reference and the changed
(key, optional value) pairs at that block; a none value means deletion. -/
structure StorageChangeSet (H : Type) where
  block : H
  changes : List (StorageKey × Option StorageData)
  deriving DecidableEq

/-- sc_rpc_api::state::ReadProof: a block hash and the proof blobs. -/
structure ReadProof (H : Type) where
  at_block : H
  proof : List Bytes
  deriving DecidableEq

/-- The state RPC error type (self::error::Error); only the variants this
module's code constructs are modelled, with the boxed source error of
Client rendered as an opaque String. -/
inductive Error where
  | Client (msg : String)
  | InvalidCount (value : Nat) (max : Nat)
  deriving DecidableEq

/-- sc_rpc_api::UnsafeRpcError, the denial error produced when the safety
policy rejects a call. -/
inductive UnsafeRpcError where
  | mk
  deriving DecidableEq

/-- sc_rpc_api::DenyUnsafe: whether the safety policy denies RPC calls
flagged as not safe for untrusted callers. -/
inductive DenyUnsafe where
  | Yes
  | No
  deriving DecidableEq

/-- DenyUnsafe::check_if_safe: errors with UnsafeRpcError exactly when the
policy denies. -/
def DenyUnsafe.check_if_safe : DenyUnsafe → Except UnsafeRpcError Unit
  | .Yes => .error .mk
  | .No => .ok ()

/-- The boxed payload of JsonRpseeCallError::Failed: either a state Error or
the safety denial error. -/
inductive CallFailure where
  | state (e : Error)
  | denied (e : UnsafeRpcError)
  deriving DecidableEq

/-- jsonrpsee_types CallError as used here: InvalidParams for undecodable
parameters, Failed for a boxed domain error. -/
inductive JsonRpseeCallError where
  | InvalidParams
  | Failed (e : CallFailure)
  deriving DecidableEq

/-- to_jsonrpsee_call_error from the source: wraps a state Error as Failed. -/
def to_jsonrpsee_call_error (e : Error) : JsonRpseeCallError :=
  .Failed (.state e)

/-- Opaque jsonrpsee parameter-decoding failure, the error of params.parse()
or params.one(). -/
inductive ParseError where
  | mk
  deriving DecidableEq

/-- STORAGE_KEYS_PAGED_MAX_COUNT from the source. -/
def STORAGE_KEYS_PAGED_MAX_COUNT : Nat := 1000

/-- One invocation of a StateBackend operation with its arguments, recorded
by the handler models to witness exactly which backend operations a dispatch
performed. -/
inductive BackendCall (H : Type) where
  | call (block : Option H) (method : String) (data : Bytes)
  | storage_keys (block : Option H) (keyPrefix : StorageKey)
  | storage_pairs (block : Option H) (keyPrefix : StorageKey)
  | storage_keys_paged (block : Option H) (keyPrefix : Option StorageKey)
      (count : Nat) (start_key : Option StorageKey)
  | storage (block : Option H) (key : StorageKey)
  | storage_hash (block : Option H) (key : StorageKey)
  | storage_size (block : Option H) (key : StorageKey)
  | metadata (block : Option H)
  | runtime_version (block : Option H)
  | query_storage (fromBlock : H) (toBlock : Option H) (keys : List StorageKey)
  | query_storage_at (keys : List StorageKey) (at_block : Option H)
  | read_proof (block : Option H) (keys : List StorageKey)
  | trace_block (block : H) (targets : Option String) (storage_keys : Option String)
  deriving DecidableEq

/-- The StateBackend trait: the full operation set, one function per async
trait method, Result rendered as Except. -/
structure StateBackend (H : Type) where
  call : Option H → String → Bytes → Except Error Bytes
  storage_keys : Option H → StorageKey → Except Error (List StorageKey)
  storage_pairs : Option H → StorageKey → Except Error (List (StorageKey × StorageData))
  storage_keys_paged : Option H → Option StorageKey → Nat → Option StorageKey →
      Except Error (List StorageKey)
  storage : Option H → StorageKey → Except Error (Option StorageData)
  storage_hash : Option H → StorageKey → Except Error (Option H)
  storage_size : Option H → StorageKey → Except Error (Option Nat)
  metadata : Option H → Except Error Bytes
  runtime_version : Option H → Except Error RuntimeVersion
  query_storage : H → Option H → List StorageKey →
      Except Error (List (StorageChangeSet H))
  query_storage_at : List StorageKey → Option H →
      Except Error (List (StorageChangeSet H))
  read_proof : Option H → List StorageKey → Except Error (ReadProof H)
  trace_block : H → Option String → Option String → Except Error TraceBlockResponse

/-- The State RPC service: the chosen backend plus the safety policy (the
source's deny_unsafe field, renamed denyPolicy). The client handle held
alongside only feeds the subscription machinery, modelled separately. -/
structure State (H : Type) where
  backend : StateBackend H
  denyPolicy : DenyUnsafe

/-- Handler registered for "state_call": parse (method, data, block), then
dispatch to backend.call. -/
def state_call {H : Type} (st : State H)
    (params : Except ParseError (String × Bytes × Option H)) :
    Except JsonRpseeCallError Bytes × List (BackendCall H) :=
  match params with
  | .error _ => (.error .InvalidParams, [])
  | .ok (method, data, block) =>
    ((st.backend.call block method data).mapError to_jsonrpsee_call_error,
      [.call block method data])

/-- Handler registered for "state_getKeys": parse (key_prefix, block), then
dispatch to backend.storage_keys. -/
def state_getKeys {H : Type} (st : State H)
    (params : Except ParseError (StorageKey × Option H)) :
    Except JsonRpseeCallError (List StorageKey) × List (BackendCall H) :=
  match params with
  | .error _ => (.error .InvalidParams, [])
  | .ok (keyPrefix, block) =>
    ((st.backend.storage_keys block keyPrefix).mapError to_jsonrpsee_call_error,
      [.storage_keys block keyPrefix])

/-- Handler registered for "state_getPairs": the safety gate runs first, then
parameters are parsed and backend.storage_pairs dispatched. -/
def state_getPairs {H : Type} (st : State H)
    (params : Except ParseError (StorageKey × Option H)) :
    Except JsonRpseeCallError (List (StorageKey × StorageData)) × List (BackendCall H) :=
  match st.denyPolicy.check_if_safe with
  | .error e => (.error (.Failed (.denied e)), [])
  | .ok _ =>
    match params with
    | .error _ => (.error .InvalidParams, [])
    | .ok (keyPrefix, block) =>
      ((st.backend.storage_pairs block keyPrefix).mapError to_jsonrpsee_call_error,
        [.storage_pairs block keyPrefix])

/-- Handler registered for "state_getKeysPaged": parse, reject a count above
STORAGE_KEYS_PAGED_MAX_COUNT with InvalidCount before any backend call, else
dispatch to backend.storage_keys_paged. -/
def state_getKeysPaged {H : Type} (st : State H)
    (params : Except ParseError (Option StorageKey × Nat × Option StorageKey × Option H)) :
    Except JsonRpseeCallError (List StorageKey) × List (BackendCall H) :=
  match params with
  | .error _ => (.error .InvalidParams, [])
  | .ok (keyPrefix, count, start_key, block) =>
    if count > STORAGE_KEYS_PAGED_MAX_COUNT then
      (.error (.Failed (.state (.InvalidCount count STORAGE_KEYS_PAGED_MAX_COUNT))), [])
    else
      ((st.backend.storage_keys_paged block keyPrefix count start_key).mapError
          to_jsonrpsee_call_error,
        [.storage_keys_paged block keyPrefix count start_key])

/-- Handler registered for "state_getStorage": parse (key, block), dispatch
to backend.storage. -/
def state_getStorage {H : Type} (st : State H)
    (params : Except ParseError (StorageKey × Option H)) :
    Except JsonRpseeCallError (Option StorageData) × List (BackendCall H) :=
  match params with
  | .error _ => (.error .InvalidParams, [])
  | .ok (key, block) =>
    ((st.backend.storage block key).mapError to_jsonrpsee_call_error,
      [.storage block key])

/-- Handler registered for "state_getStorageHash", exactly as the source has
it at src/client/rpc/src/state/mod.rs lines 268-272: it dispatches to
backend.storage — the value lookup — not to backend.storage_hash. -/
def state_getStorageHash {H : Type} (st : State H)
    (params : Except ParseError (StorageKey × Option H)) :
    Except JsonRpseeCallError (Option StorageData) × List (BackendCall H) :=
  match params with
  | .error _ => (.error .InvalidParams, [])
  | .ok (key, block) =>
    ((st.backend.storage block key).mapError to_jsonrpsee_call_error,
      [.storage block key])

/-- Handler registered for "state_getStorageSize": parse (key, block),
dispatch to backend.storage_size. -/
def state_getStorageSize {H : Type} (st : State H)
    (params : Except ParseError (StorageKey × Option H)) :
    Except JsonRpseeCallError (Option Nat) × List (BackendCall H) :=
  match params with
  | .error _ => (.error .InvalidParams, [])
  | .ok (key, block) =>
    ((st.backend.storage_size block key).mapError to_jsonrpsee_call_error,
      [.storage_size block key])

/-- Handler registered for "state_getMetadata": the source reads the block
parameter with params.one().ok(), so a missing or undecodable parameter
becomes none (current best) and the backend is dispatched either way; there
is no InvalidParams path. -/
def state_getMetadata {H : Type} (st : State H)
    (params : Except ParseError H) :
    Except JsonRpseeCallError Bytes × List (BackendCall H) :=
  let maybe_block := params.toOption
  ((st.backend.metadata maybe_block).mapError to_jsonrpsee_call_error,
    [.metadata maybe_block])

/-- Handler registered for "state_getRuntimeVersion": the safety gate runs
first; the block parameter is then read with params.one().ok(), coercing a
missing or undecodable parameter to none before dispatch. -/
def state_getRuntimeVersion {H : Type} (st : State H)
    (params : Except ParseError H) :
    Except JsonRpseeCallError RuntimeVersion × List (BackendCall H) :=
  match st.denyPolicy.check_if_safe with
  | .error e => (.error (.Failed (.denied e)), [])
  | .ok _ =>
    let at_block := params.toOption
    ((st.backend.runtime_version at_block).mapError to_jsonrpsee_call_error,
      [.runtime_version at_block])

/-- Handler registered for "state_queryStorage": safety gate, then parse
(keys, from, to) and dispatch to backend.query_storage. -/
def state_queryStorage {H : Type} (st : State H)
    (params : Except ParseError (List StorageKey × H × Option H)) :
    Except JsonRpseeCallError (List (StorageChangeSet H)) × List (BackendCall H) :=
  match st.denyPolicy.check_if_safe with
  | .error e => (.error (.Failed (.denied e)), [])
  | .ok _ =>
    match params with
    | .error _ => (.error .InvalidParams, [])
    | .ok (keys, fromBlock, toBlock) =>
      ((st.backend.query_storage fromBlock toBlock keys).mapError
          to_jsonrpsee_call_error,
        [.query_storage fromBlock toBlock keys])

/-- Handler registered for "state_queryStorageAt": safety gate, then parse
(keys, at) and dispatch to backend.query_storage_at. -/
def state_queryStorageAt {H : Type} (st : State H)
    (params : Except ParseError (List StorageKey × Option H)) :
    Except JsonRpseeCallError (List (StorageChangeSet H)) × List (BackendCall H) :=
  match st.denyPolicy.check_if_safe with
  | .error e => (.error (.Failed (.denied e)), [])
  | .ok _ =>
    match params with
    | .error _ => (.error .InvalidParams, [])
    | .ok (keys, at_block) =>
      ((st.backend.query_storage_at keys at_block).mapError to_jsonrpsee_call_error,
        [.query_storage_at keys at_block])

/-- Handler registered for "state_getReadProof": safety gate, then parse
(keys, block) and dispatch to backend.read_proof. -/
def state_getReadProof {H : Type} (st : State H)
    (params : Except ParseError (List StorageKey × Option H)) :
    Except JsonRpseeCallError (ReadProof H) × List (BackendCall H) :=
  match st.denyPolicy.check_if_safe with
  | .error e => (.error (.Failed (.denied e)), [])
  | .ok _ =>
    match params with
    | .error _ => (.error .InvalidParams, [])
    | .ok (keys, block) =>
      ((st.backend.read_proof block keys).mapError to_jsonrpsee_call_error,
        [.read_proof block keys])

/-- Handler registered for "state_traceBlock": safety gate, then parse
(block, targets, storage_keys) and dispatch to backend.trace_block. -/
def state_traceBlock {H : Type} (st : State H)
    (params : Except ParseError (H × Option String × Option String)) :
    Except JsonRpseeCallError TraceBlockResponse × List (BackendCall H) :=
  match st.denyPolicy.check_if_safe with
  | .error e => (.error (.Failed (.denied e)), [])
  | .ok _ =>
    match params with
    | .error _ => (.error .InvalidParams, [])
    | .ok (block, targets, storage_keys) =>
      ((st.backend.trace_block block targets storage_keys).mapError
          to_jsonrpsee_call_error,
        [.trace_block block targets storage_keys])

/-- One invocation of a ChildStateBackend operation with its arguments. -/
inductive ChildBackendCall (H : Type) where
  | read_child_proof (block : Option H) (storage_key : PrefixedStorageKey)
      (keys : List StorageKey)
  | storage_keys (block : Option H) (storage_key : PrefixedStorageKey)
      (keyPrefix : StorageKey)
  | storage (block : Option H) (storage_key : PrefixedStorageKey) (key : StorageKey)
  | storage_hash (block : Option H) (storage_key : PrefixedStorageKey) (key : StorageKey)
  | storage_size (block : Option H) (storage_key : PrefixedStorageKey) (key : StorageKey)
  deriving DecidableEq

/-- The ChildStateBackend trait: the child-namespace query set. storage_size
keeps the trait's provided default body: the storage lookup with the byte
length of the stored value, in the source
self.storage(block, storage_key, key).await.map(|x| x.map(|x| x.0.len() as u64)). -/
structure ChildStateBackend (H : Type) where
  read_child_proof : Option H → PrefixedStorageKey → List StorageKey →
      Except Error (ReadProof H)
  storage_keys : Option H → PrefixedStorageKey → StorageKey →
      Except Error (List StorageKey)
  storage : Option H → PrefixedStorageKey → StorageKey →
      Except Error (Option StorageData)
  storage_hash : Option H → PrefixedStorageKey → StorageKey →
      Except Error (Option H)
  storage_size : Option H → PrefixedStorageKey → StorageKey →
      Except Error (Option Nat) :=
    fun block storage_key key =>
      (storage block storage_key key).map (fun x => x.map (fun v => v.length))

/-- The ChildState RPC service: only the backend, no safety policy field. -/
structure ChildState (H : Type) where
  backend : ChildStateBackend H

/-- Handler registered for "childstate_getStorage". -/
def childstate_getStorage {H : Type} (st : ChildState H)
    (params : Except ParseError (PrefixedStorageKey × StorageKey × Option H)) :
    Except JsonRpseeCallError (Option StorageData) × List (ChildBackendCall H) :=
  match params with
  | .error _ => (.error .InvalidParams, [])
  | .ok (storage_key, key, block) =>
    ((st.backend.storage block storage_key key).mapError to_jsonrpsee_call_error,
      [.storage block storage_key key])

/-- Handler registered for "childstate_getKeys". -/
def childstate_getKeys {H : Type} (st : ChildState H)
    (params : Except ParseError (PrefixedStorageKey × StorageKey × Option H)) :
    Except JsonRpseeCallError (List StorageKey) × List (ChildBackendCall H) :=
  match params with
  | .error _ => (.error .InvalidParams, [])
  | .ok (storage_key, key, block) =>
    ((st.backend.storage_keys block storage_key key).mapError to_jsonrpsee_call_error,
      [.storage_keys block storage_key key])

/-- Handler registered for "childstate_getStorageHash". -/
def childstate_getStorageHash {H : Type} (st : ChildState H)
    (params : Except ParseError (PrefixedStorageKey × StorageKey × Option H)) :
    Except JsonRpseeCallError (Option H) × List (ChildBackendCall H) :=
  match params with
  | .error _ => (.error .InvalidParams, [])
  | .ok (storage_key, key, block) =>
    ((st.backend.storage_hash block storage_key key).mapError to_jsonrpsee_call_error,
      [.storage_hash block storage_key key])

/-- Handler registered for "childstate_getStorageSize". -/
def childstate_getStorageSize {H : Type} (st : ChildState H)
    (params : Except ParseError (PrefixedStorageKey × StorageKey × Option H)) :
    Except JsonRpseeCallError (Option Nat) × List (ChildBackendCall H) :=
  match params with
  | .error _ => (.error .InvalidParams, [])
  | .ok (storage_key, key, block) =>
    ((st.backend.storage_size block storage_key key).mapError to_jsonrpsee_call_error,
      [.storage_size block storage_key key])

/-- One step of the subscription's filter_map closure: given previous_version
and the outcome of recomputing the best block's runtime version on one
change notification, returns the new previous_version and the version passed
on for delivery, if any. An Err outcome is logged in the source and yields
none without touching previous_version. -/
def watch_step (prev : RuntimeVersion) (tick : Except String RuntimeVersion) :
    RuntimeVersion × Option RuntimeVersion :=
  match tick with
  | .ok v => if prev ≠ v then (v, some v) else (prev, none)
  | .error _ => (prev, none)

/-- The versions the watch sends on the runtime-version sink while consuming
a list of notification ticks, starting from previous_version prev. -/
def watch_process (prev : RuntimeVersion) :
    List (Except String RuntimeVersion) → List RuntimeVersion
  | [] => []
  | t :: rest =>
    match watch_step prev t with
    | (p, some v) => v :: watch_process p rest
    | (p, none) => watch_process p rest

/-- SubscriptionSinks::subscribe as the sequence of runtime versions it sends
on the runtime-version sink: the version computed at the current best block
at subscribe time is sent first and recorded as previous_version, then the
notification ticks are processed; if the initial computation fails,
subscribe returns Err before sending anything. -/
def subscribe_sends (initVersion : Except String RuntimeVersion)
    (ticks : List (Except String RuntimeVersion)) : List RuntimeVersion :=
  match initVersion with
  | .error _ => []
  | .ok v => v :: watch_process v ticks

/-- One iteration of subscribe's final loop. The source is
loop { if let Some(version) = stream.next().await { log on send error } }:
given the awaited stream item (none when the filtered feed has ended),
returns the versions sent this iteration and whether the body exits the
loop — it contains no break and no return, so the flag is always false. -/
def loop_iteration (item : Option RuntimeVersion) : List RuntimeVersion × Bool :=
  match item with
  | some v => ([v], false)
  | none => ([], false)

/-- Whether subscribe's loop has exited within n further iterations once the
notification feed has ended (every further awaited item is none). -/
def loop_exited_after_feed_end : Nat → Bool
  | 0 => false
  | n + 1 => (loop_iteration none).2 || loop_exited_after_feed_end n

/-- The subscription pairs into_rpc_module registers, in source order, each
as (subscribe method, unsubscribe method). -/
def registered_subscriptions : List (String × String) :=
  [("state_runtimeVersion", "state_unsubscribeRuntimeVersion"),
   ("state_storage", "state_unsubscribeStorage")]

/-- The methods into_rpc_module registers on the state module, in source
order. -/
def registered_methods : List String :=
  ["state_call", "state_getKeys", "state_getPairs", "state_getKeysPaged",
   "state_getStorage", "state_getStorageHash", "state_getStorageSize",
   "state_getMetadata", "state_getRuntimeVersion", "state_queryStorage",
   "state_queryStorageAt", "state_getReadProof", "state_traceBlock"]

/-- SubscriptionSinks as built in into_rpc_module: the only sink retained is
runtime_version_sink, the sink of the "state_runtimeVersion" subscription;
the "state_storage" sink is bound to _storage_subs and dropped on the spot.
Sinks are identified here by their subscribe method name. -/
structure SubscriptionSinksModel where
  runtime_version_sink : String

/-- The SubscriptionSinks value into_rpc_module returns. -/
def state_subscription_sinks : SubscriptionSinksModel :=
  { runtime_version_sink := "state_runtimeVersion" }

/-- Every send the subscribe task performs, tagged with the sink channel it
goes to: subscribe only ever sends on runtime_version_sink. -/
def subscribe_channel_sends (sinks : SubscriptionSinksModel)
    (initVersion : Except String RuntimeVersion)
    (ticks : List (Except String RuntimeVersion)) :
    List (String × RuntimeVersion) :=
  (subscribe_sends initVersion ticks).map (fun v => (sinks.runtime_version_sink, v))

/-- The change set recorded for one block of a historical diff walk: exactly
the requested keys whose value at block b differs from the value at the
immediately preceding block, each with its value at b. -/
def diff_changes (stateAt : Nat → StorageKey → Option StorageData)
    (b : Nat) (keys : List StorageKey) : List (StorageKey × Option StorageData) :=
  keys.filterMap (fun k =>
    if stateAt b k ≠ stateAt (b - 1) k then some (k, stateAt b k) else none)

/-- Modelled from the spec: the FullState implementation of
StateBackend::query_storage lives in state_full.rs, which is not among the
sources; this follows the spec's description (sections 3 and 4.1): the first
change set is a complete snapshot of every requested key's value at the from
block, then one change set per block up to and including the to block
(defaulting to the current best) holding only the keys whose value differs
from the immediately preceding included block. Blocks are modelled by their
heights and state by a function from height and key to the optional stored
value. -/
def query_storage_model (stateAt : Nat → StorageKey → Option StorageData)
    (best : Nat) (fromB : Nat) (toB : Option Nat) (keys : List StorageKey) :
    List (StorageChangeSet Nat) :=
  let toBlock := toB.getD best
  { block := fromB, changes := keys.map (fun k => (k, stateAt fromB k)) } ::
    (List.range' (fromB + 1) (toBlock - fromB)).map
      (fun b => { block := b, changes := diff_changes stateAt b keys })

/-- A concrete backend for exercising the dispatch surface: key [1] holds
the value [7, 7], whose hash is 42 and size 2; the metadata blob is
[1, 2, 3]. -/
def exampleBackend : StateBackend Nat where
  call := fun _ _ _ => .ok []
  storage_keys := fun _ _ => .ok []
  storage_pairs := fun _ _ => .ok []
  storage_keys_paged := fun _ _ _ _ => .ok []
  storage := fun _ key => .ok (if key = [1] then some [7, 7] else none)
  storage_hash := fun _ key => .ok (if key = [1] then some 42 else none)
  storage_size := fun _ key => .ok (if key = [1] then some 2 else none)
  metadata := fun _ => .ok [1, 2, 3]
  runtime_version := fun _ => .error (Error.Client "no runtime")
  query_storage := fun _ _ _ => .ok []
  query_storage_at := fun _ _ => .ok []
  read_proof := fun _ _ => .ok { at_block := 0, proof := [] }
  trace_block := fun _ _ _ => .ok 0

/-- When previous_version is prev, every version sent later differs from its
neighbor and the first sent differs from prev: the dedup filter in
watch_step compares each candidate with the last recorded version. -/
theorem chain_ne_watch_process (prev : RuntimeVersion)
    (ticks : List (Except String RuntimeVersion)) :
    List.Chain' (fun a b => a ≠ b) (prev :: watch_process prev ticks) := by
  induction ticks generalizing prev with
  | nil => simp [watch_process]
  | cons t rest ih =>
    match t with
    | .error msg =>
      simpa [watch_process, watch_step] using ih prev
    | .ok w =>
      by_cases h : prev = w
      · simpa [watch_process, watch_step, h] using ih w
      · have hne : prev ≠ w := h
        simpa [watch_process, watch_step, hne] using
          (List.chain'_cons.mpr ⟨hne, ih w⟩)

/-- C1: every RPC method flagged unsafe — state_getPairs,
state_getRuntimeVersion, state_queryStorage, state_queryStorageAt,
state_getReadProof and state_traceBlock — fails with the Unsafe denial error
when the safety policy denies unsafe calls, for every backend and every
parameter value (valid ones included), and records no backend invocation. -/
theorem c1_gated_methods_fail_closed {H : Type} (b : StateBackend H)
    (p1 : StorageKey × Option H)
    (p2 : H)
    (p3 : List StorageKey × H × Option H)
    (p4 : List StorageKey × Option H)
    (p5 : List StorageKey × Option H)
    (p6 : H × Option String × Option String) :
    state_getPairs { backend := b, denyPolicy := .Yes } (.ok p1)
        = (.error (.Failed (.denied .mk)), [])
    ∧ state_getRuntimeVersion { backend := b, denyPolicy := .Yes } (.ok p2)
        = (.error (.Failed (.denied .mk)), [])
    ∧ state_queryStorage { backend := b, denyPolicy := .Yes } (.ok p3)
        = (.error (.Failed (.denied .mk)), [])
    ∧ state_queryStorageAt { backend := b, denyPolicy := .Yes } (.ok p4)
        = (.error (.Failed (.denied .mk)), [])
    ∧ state_getReadProof { backend := b, denyPolicy := .Yes } (.ok p5)
        = (.error (.Failed (.denied .mk)), [])
    ∧ state_traceBlock { backend := b, denyPolicy := .Yes } (.ok p6)
        = (.error (.Failed (.denied .mk)), []) := by
  exact ⟨rfl, rfl, rfl, rfl, rfl, rfl⟩

/-- C2: state_getKeysPaged rejects every request with count above 1000 with
InvalidCount carrying the requested count and the maximum 1000 and records
no backend invocation; every request with count at most 1000 (1000 included)
is dispatched to the backend's storage_keys_paged with the parsed
arguments. -/
theorem c2_keys_paged_count_gate {H : Type} (b : StateBackend H)
    (den : DenyUnsafe) (keyPrefix : Option StorageKey) (count : Nat)
    (start_key : Option StorageKey) (block : Option H) :
    (count > 1000 →
      state_getKeysPaged { backend := b, denyPolicy := den }
          (.ok (keyPrefix, count, start_key, block))
        = (.error (.Failed (.state (.InvalidCount count 1000))), []))
    ∧ (count ≤ 1000 →
      state_getKeysPaged { backend := b, denyPolicy := den }
          (.ok (keyPrefix, count, start_key, block))
        = ((b.storage_keys_paged block keyPrefix count start_key).mapError
            to_jsonrpsee_call_error,
          [.storage_keys_paged block keyPrefix count start_key])) := by
  constructor
  · intro h
    simp [state_getKeysPaged, STORAGE_KEYS_PAGED_MAX_COUNT, h]
  · intro h
    simp [state_getKeysPaged, STORAGE_KEYS_PAGED_MAX_COUNT, Nat.not_lt.mpr h]

/-- C2 witness: the boundary counts 1001 and 1000 on the example backend:
1001 is rejected with InvalidCount 1001 1000 and no backend call, 1000 is
dispatched. -/
theorem c2_keys_paged_count_gate_witness :
    state_getKeysPaged { backend := exampleBackend, denyPolicy := .No }
        (.ok (none, 1001, none, none))
      = (.error (.Failed (.state (.InvalidCount 1001 1000))), [])
    ∧ state_getKeysPaged { backend := exampleBackend, denyPolicy := .No }
        (.ok (none, 1000, none, none))
      = ((exampleBackend.storage_keys_paged none none 1000 none).mapError
          to_jsonrpsee_call_error,
        [.storage_keys_paged none none 1000 none]) :=
  ⟨(c2_keys_paged_count_gate exampleBackend .No none 1001 none none).1 (by decide),
   (c2_keys_paged_count_gate exampleBackend .No none 1000 none none).2 (by decide)⟩

/-- C3: at the failing input — the example backend, whose entry at key [1]
has value [7, 7] and hash 42 — the handler registered for
"state_getStorageHash" returns the stored value, obtained by invoking
backend.storage, and never calls backend.storage_hash, whose answer at the
same input is the hash 42: the dispatch does not perform the point
value-hash lookup the claim describes. -/
theorem c3_get_storage_hash_returns_value :
    state_getStorageHash { backend := exampleBackend, denyPolicy := .No }
        (.ok ([1], none))
      = (.ok (some [7, 7]), [.storage none [1]])
    ∧ exampleBackend.storage_hash none [1] = .ok (some 42) := by
  constructor
  · simp [state_getStorageHash, exampleBackend, Except.mapError]
  · simp [exampleBackend]

/-- C4: the runtime-version subscription sends the best block's version
first, recording it as previous_version; afterwards a recomputed version is
passed to the sink exactly when it differs by structural equality from the
last recorded version, previous_version being updated exactly on delivery,
so the sequence sent on the sink never holds two consecutive identical
versions. -/
theorem c4_watch_no_consecutive_duplicates (v : RuntimeVersion)
    (ticks : List (Except String RuntimeVersion)) :
    (subscribe_sends (.ok v) ticks).head? = some v
    ∧ List.Chain' (fun a b => a ≠ b) (subscribe_sends (.ok v) ticks)
    ∧ (∀ prev w, watch_step prev (.ok w)
        = if prev ≠ w then (w, some w) else (prev, none))
    ∧ (∀ prev msg, watch_step prev (.error msg) = (prev, none)) := by
  refine ⟨rfl, ?_, fun prev w => rfl, fun prev msg => rfl⟩
  exact chain_ne_watch_process v ticks

/-- C5: the first change set of query_storage is the complete snapshot of
every requested key's value at the from block; there follows one change set
per block up to and including the to block (defaulting to the current best),
each containing exactly the requested keys whose value differs from the
immediately preceding included block, so a key whose value never changes
across the range appears only in the initial snapshot. -/
theorem c5_query_storage_diff_semantics
    (stateAt : Nat → StorageKey → Option StorageData)
    (best fromB : Nat) (toB : Option Nat) (keys : List StorageKey) :
    (query_storage_model stateAt best fromB toB keys).head?
      = some { block := fromB, changes := keys.map (fun k => (k, stateAt fromB k)) }
    ∧ query_storage_model stateAt best fromB toB keys
      = { block := fromB, changes := keys.map (fun k => (k, stateAt fromB k)) }
        :: (List.range' (fromB + 1) (toB.getD best - fromB)).map
          (fun b => { block := b, changes := diff_changes stateAt b keys })
    ∧ (∀ b k, (∃ v, (k, v) ∈ diff_changes stateAt b keys)
        ↔ (k ∈ keys ∧ stateAt b k ≠ stateAt (b - 1) k))
    ∧ (∀ k, (∀ b, stateAt b k = stateAt fromB k) →
        ∀ b v, (k, v) ∉ diff_changes stateAt b keys) := by
  refine ⟨rfl, rfl, ?_, ?_⟩
  · intro b k
    constructor
    · rintro ⟨v, hv⟩
      obtain ⟨a, ha, hfa⟩ := List.mem_filterMap.mp hv
      by_cases hcond : stateAt b a ≠ stateAt (b - 1) a
      · rw [if_pos hcond] at hfa
        have hak : a = k := congrArg Prod.fst (Option.some.inj hfa)
        subst hak
        exact ⟨ha, hcond⟩
      · rw [if_neg hcond] at hfa
        exact absurd hfa (by simp)
    · rintro ⟨hk, hne⟩
      exact ⟨stateAt b k, List.mem_filterMap.mpr ⟨k, hk, by rw [if_pos hne]⟩⟩
  · intro k hconst b v hv
    obtain ⟨a, ha, hfa⟩ := List.mem_filterMap.mp hv
    by_cases hcond : stateAt b a ≠ stateAt (b - 1) a
    · rw [if_pos hcond] at hfa
      have hak : a = k := congrArg Prod.fst (Option.some.inj hfa)
      subst hak
      exact hcond (by rw [hconst b, hconst (b - 1)])
    · rw [if_neg hcond] at hfa
      exact absurd hfa (by simp)

/-- C6: at the failing input — the notification feed has ended, so every
further awaited stream item is none — one iteration of subscribe's loop
sends nothing and does not exit, and however many iterations run the loop
has still not exited: the watch never reaches a terminated state, against
the claim that the subscription task stops. -/
theorem c6_watch_loop_never_exits (n : Nat) :
    loop_iteration none = ([], false)
    ∧ loop_exited_after_feed_end n = false := by
  refine ⟨rfl, ?_⟩
  induction n with
  | zero => rfl
  | succ m ih => simp [loop_exited_after_feed_end, loop_iteration, ih]

/-- C7: a failure while recomputing the runtime version is logged and its
tick skipped without touching previous_version, and the sequence of versions
sent with the failing tick present equals the sequence with it removed — the
subscription keeps processing every later notification. -/
theorem c7_version_error_skips_tick (prev : RuntimeVersion) (msg : String)
    (ts1 ts2 : List (Except String RuntimeVersion)) :
    watch_step prev (.error msg) = (prev, none)
    ∧ watch_process prev (ts1 ++ .error msg :: ts2)
      = watch_process prev (ts1 ++ ts2) := by
  refine ⟨rfl, ?_⟩
  induction ts1 generalizing prev with
  | nil => simp [watch_process, watch_step]
  | cons t rest ih =>
    show watch_process prev (t :: (rest ++ .error msg :: ts2))
        = watch_process prev (t :: (rest ++ ts2))
    rcases hws : watch_step prev t with ⟨p, d⟩
    cases d with
    | none =>
      simp only [watch_process, hws]
      exact ih p
    | some w =>
      simp only [watch_process, hws]
      exact congrArg (fun l => w :: l) (ih p)

/-- C8 counterexample: a malformed parameter to state_getMetadata does not
fail with InvalidParams — params.one().ok() coerces the undecodable block
parameter to none and the backend's metadata operation is invoked, here
returning the example backend's metadata blob. -/
theorem c8_metadata_malformed_params_reach_backend :
    state_getMetadata { backend := exampleBackend, denyPolicy := .No }
        (.error .mk)
      = (.ok [1, 2, 3], [.metadata none])
    ∧ ((.ok [1, 2, 3] : Except JsonRpseeCallError Bytes)
      ≠ .error .InvalidParams) := by
  exact ⟨rfl, by simp⟩

/-- C8 amended: every handler that parses required parameters fails with
InvalidParams on malformed parameters with no backend invocation — for every
state method once the safety gate passes, and for every child-state method —
while state_getMetadata and state_getRuntimeVersion instead coerce an
undecodable block parameter to none (current best block) and do invoke the
backend. -/
theorem c8_invalid_params_amended {H : Type} (b : StateBackend H)
    (cb : ChildStateBackend H) (den : DenyUnsafe) (pe : ParseError) :
    state_call { backend := b, denyPolicy := den } (.error pe)
        = (.error .InvalidParams, [])
    ∧ state_getKeys { backend := b, denyPolicy := den } (.error pe)
        = (.error .InvalidParams, [])
    ∧ state_getKeysPaged { backend := b, denyPolicy := den } (.error pe)
        = (.error .InvalidParams, [])
    ∧ state_getStorage { backend := b, denyPolicy := den } (.error pe)
        = (.error .InvalidParams, [])
    ∧ state_getStorageHash { backend := b, denyPolicy := den } (.error pe)
        = (.error .InvalidParams, [])
    ∧ state_getStorageSize { backend := b, denyPolicy := den } (.error pe)
        = (.error .InvalidParams, [])
    ∧ state_getPairs { backend := b, denyPolicy := .No } (.error pe)
        = (.error .InvalidParams, [])
    ∧ state_queryStorage { backend := b, denyPolicy := .No } (.error pe)
        = (.error .InvalidParams, [])
    ∧ state_queryStorageAt { backend := b, denyPolicy := .No } (.error pe)
        = (.error .InvalidParams, [])
    ∧ state_getReadProof { backend := b, denyPolicy := .No } (.error pe)
        = (.error .InvalidParams, [])
    ∧ state_traceBlock { backend := b, denyPolicy := .No } (.error pe)
        = (.error .InvalidParams, [])
    ∧ childstate_getStorage { backend := cb } (.error pe)
        = (.error .InvalidParams, [])
    ∧ childstate_getKeys { backend := cb } (.error pe)
        = (.error .InvalidParams, [])
    ∧ childstate_getStorageHash { backend := cb } (.error pe)
        = (.error .InvalidParams, [])
    ∧ childstate_getStorageSize { backend := cb } (.error pe)
        = (.error .InvalidParams, [])
    ∧ state_getMetadata { backend := b, denyPolicy := den } (.error pe)
        = ((b.metadata none).mapError to_jsonrpsee_call_error, [.metadata none])
    ∧ state_getRuntimeVersion { backend := b, denyPolicy := .No } (.error pe)
        = ((b.runtime_version none).mapError to_jsonrpsee_call_error,
          [.runtime_version none]) := by
  exact ⟨rfl, rfl, rfl, rfl, rfl, rfl, rfl, rfl, rfl, rfl, rfl, rfl, rfl, rfl,
    rfl, rfl, rfl⟩

/-- C9: a ChildStateBackend built without overriding the provided
storage_size default answers storage_size as the storage lookup mapped
through the stored value's byte length: Some(length) exactly when an entry
exists at that key in the child namespace, None when none does, and errors
passed through — no prefix-sum fallback. -/
theorem c9_child_storage_size_default {H : Type}
    (rcp : Option H → PrefixedStorageKey → List StorageKey → Except Error (ReadProof H))
    (sk : Option H → PrefixedStorageKey → StorageKey → Except Error (List StorageKey))
    (s : Option H → PrefixedStorageKey → StorageKey → Except Error (Option StorageData))
    (sh : Option H → PrefixedStorageKey → StorageKey → Except Error (Option H))
    (block : Option H) (storage_key : PrefixedStorageKey) (key : StorageKey) :
    ({ read_child_proof := rcp, storage_keys := sk, storage := s,
        storage_hash := sh } : ChildStateBackend H).storage_size block storage_key key
      = (s block storage_key key).map (fun x => x.map (fun v => v.length)) := by
  rfl

/-- C10: both the state_storage/state_unsubscribeStorage pair and the
runtime-version pair are registered on the module, but the SubscriptionSinks
value retains only the runtime-version sink and every send the subscribe
task performs goes to that sink, so no event is ever sent on the
state_storage channel. -/
theorem c10_storage_subscription_never_fed :
    ("state_storage", "state_unsubscribeStorage") ∈ registered_subscriptions
    ∧ state_subscription_sinks.runtime_version_sink = "state_runtimeVersion"
    ∧ ∀ (initVersion : Except String RuntimeVersion)
        (ticks : List (Except String RuntimeVersion)) (ver : RuntimeVersion),
        ("state_storage", ver) ∉
          subscribe_channel_sends state_subscription_sinks initVersion ticks := by
  refine ⟨by simp [registered_subscriptions], rfl, ?_⟩
  intro initVersion ticks ver hmem
  obtain ⟨v, _, heq⟩ := List.mem_map.mp hmem
  have h1 := congrArg Prod.fst heq
  simp [state_subscription_sinks] at h1

end Substrate
